import Mathlib

/-!
# Verification of the gowebsock WebSocket frame codec and protocol core

Shallow embedding of the Go sources `internal/frame.go`, `internal/data_frames.go`,
`internal/websock.go` and `frames/control_frames.go`.

Conventions of the embedding:
* A Go `byte` is a `Nat` that is `< 256` on every byte produced by this code; byte
  streams (`io.Reader` contents and marshalled buffers) are `List Nat`.
* Go `uint64` values are `Nat` (callers of the Go code keep them below `2 ^ 64`;
  hypotheses state this where a proof needs it).
* The 4-byte array `MaskingKey [4]byte` is a `List Nat`; reads of its entries go
  through `List.getD _ 0`, matching the zero-filled Go array.
* `crypto/rand` is modelled by passing the generated masking key (or a `Nat`-indexed
  family of keys) as an explicit argument; the random source never fails.
* Fallible Go functions returning `(T, error)` become `Option T`; distinct error
  values that a claim needs to tell apart are tracked with explicit result types.
* Transport writes are modelled as always succeeding; the frames written to the
  peer are accumulated in an explicit `sent` list.
-/

namespace Gowebsock

/-! ## Byte-stream helpers (`encoding/binary`, `io.ReadFull`) -/

/-- `io.ReadFull r buf` for a deterministic stream: take exactly `n` bytes,
failing when fewer are available.  Returns the bytes read and the rest. -/
def readFull (n : Nat) (s : List Nat) : Option (List Nat × List Nat) :=
  if s.length < n then none else some (s.take n, s.drop n)

/-- `binary.BigEndian.PutUint16` of a value already truncated to 16 bits. -/
def putUint16BE (v : Nat) : List Nat :=
  [v / 2 ^ 8 % 256, v % 256]

/-- `binary.BigEndian.PutUint64`. -/
def putUint64BE (v : Nat) : List Nat :=
  [v / 2 ^ 56 % 256, v / 2 ^ 48 % 256, v / 2 ^ 40 % 256, v / 2 ^ 32 % 256,
   v / 2 ^ 24 % 256, v / 2 ^ 16 % 256, v / 2 ^ 8 % 256, v % 256]

/-- `binary.BigEndian.Uint16` on two stream bytes (each `< 256`). -/
def readUint16BE (b0 b1 : Nat) : Nat := b0 * 2 ^ 8 + b1

/-- `binary.BigEndian.Uint64` on eight stream bytes (each `< 256`). -/
def readUint64BE (b : List Nat) : Nat :=
  b.getD 0 0 * 2 ^ 56 + b.getD 1 0 * 2 ^ 48 + b.getD 2 0 * 2 ^ 40 + b.getD 3 0 * 2 ^ 32 +
  b.getD 4 0 * 2 ^ 24 + b.getD 5 0 * 2 ^ 16 + b.getD 6 0 * 2 ^ 8 + b.getD 7 0

/-- UTF-8 bytes of an ASCII string literal (every literal used by the Go core is ASCII). -/
def asciiBytes (s : String) : List Nat := s.data.map Char.toNat

/-- `unicode/utf8.Valid`: RFC 3629 validity (no overlong forms, no surrogates,
maximum U+10FFFF), by first-byte dispatch exactly as Go's accept-range table. -/
def utf8Valid : List Nat → Bool
  | [] => true
  | b :: rest =>
    if b < 128 then utf8Valid rest
    else if 194 ≤ b ∧ b ≤ 223 then
      match rest with
      | b1 :: rest2 => decide (128 ≤ b1 ∧ b1 ≤ 191) && utf8Valid rest2
      | [] => false
    else if 224 ≤ b ∧ b ≤ 239 then
      match rest with
      | b1 :: b2 :: rest3 =>
        decide ((if b = 224 then 160 else 128) ≤ b1 ∧ b1 ≤ (if b = 237 then 159 else 191)) &&
        decide (128 ≤ b2 ∧ b2 ≤ 191) && utf8Valid rest3
      | _ => false
    else if 240 ≤ b ∧ b ≤ 244 then
      match rest with
      | b1 :: b2 :: b3 :: rest4 =>
        decide ((if b = 240 then 144 else 128) ≤ b1 ∧ b1 ≤ (if b = 244 then 143 else 191)) &&
        decide (128 ≤ b2 ∧ b2 ≤ 191) && decide (128 ≤ b3 ∧ b3 ≤ 191) && utf8Valid rest4
      | _ => false
    else false

/-! ## Opcodes and status codes (`internal/frame.go`) -/

def OpContinuation : Nat := 0x0
def OpText : Nat := 0x1
def OpBinary : Nat := 0x2
def OpClose : Nat := 0x8
def OpPing : Nat := 0x9
def OpPong : Nat := 0xA

def NormalClosure : Nat := 1000
def ProtocolError : Nat := 1002
def NoStatusCode1005 : Nat := 1005
def GotInconsistentData : Nat := 1007

/-! ## The Frame structure (`internal/frame.go`) -/

/-- `internal.Frame`: one WebSocket protocol frame. -/
structure Frame where
  Fin : Bool
  Rsv1 : Bool
  Rsv2 : Bool
  Rsv3 : Bool
  OpCode : Nat
  Masked : Bool
  PayloadLength : Nat
  MaskingKey : List Nat
  PayloadData : List Nat
deriving DecidableEq, Repr

/-- The body of Go's masking loop: byte `i` of the data is XORed with
`key[i % 4]`, starting at index `i`. -/
def maskLoop (key : List Nat) : Nat → List Nat → List Nat
  | _, [] => []
  | i, b :: rest => (b ^^^ key.getD (i % 4) 0) :: maskLoop key (i + 1) rest

/-- The rolling XOR mask over a whole payload (loop started at index 0). -/
def maskBytes (key : List Nat) (data : List Nat) : List Nat :=
  maskLoop key 0 data

/-- `(*Frame).MaskPayload`: no-op unless the frame is masked and nonempty. -/
def Frame.MaskPayload (f : Frame) : Frame :=
  if f.Masked = false ∨ f.PayloadData.length = 0 then f
  else { f with PayloadData := maskBytes f.MaskingKey f.PayloadData }

/-- `(*Frame).UnmaskPayload` just calls `MaskPayload`. -/
def Frame.UnmaskPayload (f : Frame) : Frame := f.MaskPayload

/-- `(*Frame).IsControl`. -/
def Frame.IsControl (f : Frame) : Bool := 8 ≤ f.OpCode

/-- `(*Frame).IsData`. -/
def Frame.IsData (f : Frame) : Bool :=
  f.OpCode = OpText ∨ f.OpCode = OpBinary ∨ f.OpCode = OpContinuation

/-! ## Frame constructors (`internal/frame.go`) -/

/-- `internal.NewFrame`.  The `key` argument stands for the bytes that
`crypto/rand.Read` fills into `MaskingKey` when `mask` is set; the Go error
paths (random source failure) cannot occur in this model. -/
def NewFrame (fin : Bool) (opcode : Nat) (payload : List Nat) (mask : Bool)
    (key : List Nat) : Frame :=
  let frame : Frame :=
    { Fin := fin, Rsv1 := false, Rsv2 := false, Rsv3 := false, OpCode := opcode,
      PayloadLength := payload.length, PayloadData := payload, Masked := mask,
      MaskingKey := if mask then key else [0, 0, 0, 0] }
  if mask then frame.MaskPayload else frame

/-- `internal.NewServerFrame`: unmasked frame for server-to-client traffic. -/
def NewServerFrame (fin : Bool) (opcode : Nat) (payload : List Nat) : Frame :=
  NewFrame fin opcode payload false [0, 0, 0, 0]

/-- `internal.NewClientFrame`: masked frame for client-to-server traffic;
`key` is the random masking key. -/
def NewClientFrame (fin : Bool) (opcode : Nat) (payload : List Nat)
    (key : List Nat) : Frame :=
  NewFrame fin opcode payload true key

/-! ## MarshalBinary and DecodeFrame (`internal/frame.go`) -/

/-- First header byte: opcode low nibble, then FIN/RSV1/RSV2/RSV3 OR-ed in,
in the order the Go code sets them. -/
def headerByte0 (fin r1 r2 r3 : Bool) (op : Nat) : Nat :=
  let x := op &&& 15
  let x := if fin then x ||| 128 else x
  let x := if r1 then x ||| 64 else x
  let x := if r2 then x ||| 32 else x
  let x := if r3 then x ||| 16 else x
  x

/-- The four masking-key bytes written to the wire (`copy(buf[maskPos:maskPos+4],
f.MaskingKey[:])`); a Go `[4]byte` always contributes exactly 4 bytes. -/
def key4 (key : List Nat) : List Nat :=
  [key.getD 0 0, key.getD 1 0, key.getD 2 0, key.getD 3 0]

/-- `(*Frame).MarshalBinary`: header byte 0, then the mask bit OR-ed with the
minimal length encoding (inline / 16-bit / 64-bit), then the masking key if
masked, then the payload bytes verbatim. -/
def Frame.MarshalBinary (f : Frame) : List Nat :=
  let b0 := headerByte0 f.Fin f.Rsv1 f.Rsv2 f.Rsv3 f.OpCode
  let maskBit := if f.Masked then 128 else 0
  if f.PayloadLength ≤ 125 then
    [b0, maskBit ||| f.PayloadLength % 256] ++
      (if f.Masked then key4 f.MaskingKey else []) ++ f.PayloadData
  else if f.PayloadLength ≤ 65535 then
    [b0, maskBit ||| 126] ++ putUint16BE (f.PayloadLength % 2 ^ 16) ++
      (if f.Masked then key4 f.MaskingKey else []) ++ f.PayloadData
  else
    [b0, maskBit ||| 127] ++ putUint64BE f.PayloadLength ++
      (if f.Masked then key4 f.MaskingKey else []) ++ f.PayloadData

/-- The `switch` on the 7-bit length indicator in `DecodeFrame`: inline length,
16-bit extension, or 64-bit extension whose top bit must be zero (the unhit
default case leaves the length 0, as the Go switch does). -/
def decodeExtendedLength (lenIndicator : Nat) (s : List Nat) : Option (Nat × List Nat) :=
  if lenIndicator ≤ 125 then some (lenIndicator, s)
  else if lenIndicator = 126 then
    (readFull 2 s).bind fun ext =>
      some (readUint16BE (ext.1.getD 0 0) (ext.1.getD 1 0), ext.2)
  else if lenIndicator = 127 then
    (readFull 8 s).bind fun ext =>
      let len := readUint64BE ext.1
      if len &&& 1 <<< 63 != 0 then none else some (len, ext.2)
  else some (0, s)

/-- The masking-key read in `DecodeFrame`: 4 bytes when the mask bit is set,
otherwise the zero-valued `[4]byte` array. -/
def decodeMaskingKey (masked : Bool) (s : List Nat) : Option (List Nat × List Nat) :=
  if masked then readFull 4 s else some ([0, 0, 0, 0], s)

/-- The payload read in `DecodeFrame`: `payloadLength` bytes when positive,
otherwise the nil slice. -/
def decodePayloadData (payloadLength : Nat) (s : List Nat) : Option (List Nat × List Nat) :=
  if payloadLength > 0 then readFull payloadLength s else some ([], s)

/-- `internal.DecodeFrame` on a deterministic stream; returns the decoded frame
together with the bytes left unread in the reader, or `none` on any of the Go
error returns (short read, or 64-bit length with its top bit set).  The final
`UnmaskPayload` call is guarded by `Masked` exactly as in the source; it is a
no-op on an empty payload, matching Go's skipping of the payload block when
the length is zero. -/
def DecodeFrame (s : List Nat) : Option (Frame × List Nat) :=
  (readFull 2 s).bind fun hs =>
    let h0 := hs.1.getD 0 0
    let h1 := hs.1.getD 1 0
    (decodeExtendedLength (h1 &&& 127) hs.2).bind fun ls =>
      (decodeMaskingKey (h1 &&& 128 != 0) ls.2).bind fun ks =>
        (decodePayloadData ls.1 ks.2).bind fun ps =>
          let frame : Frame :=
            { Fin := h0 &&& 128 != 0, Rsv1 := h0 &&& 64 != 0, Rsv2 := h0 &&& 32 != 0,
              Rsv3 := h0 &&& 16 != 0, OpCode := h0 &&& 15, Masked := h1 &&& 128 != 0,
              PayloadLength := ls.1, MaskingKey := ks.1, PayloadData := ps.1 }
          some (if frame.Masked then frame.UnmaskPayload else frame, ps.2)

/-! ## Fragmentation (`internal/data_frames.go`) -/

/-- `internal.FragmentedFrames`.  `maxFrameSize` is a Go `int`, so it is an `Int`
here; `keys i` is the masking key that `crypto/rand` would hand the `i`-th
constructed frame (used only on the `NewClientFrame` branches). -/
def FragmentedFrames (data : List Nat) (maxFrameSize : Int) (opcode : Nat)
    (isServer : Bool) (keys : Nat → List Nat) : Option (List Frame) :=
  if maxFrameSize ≤ 0 then none
  else if opcode ≠ OpText ∧ opcode ≠ OpBinary then none
  else
    let totalLength := data.length
    if totalLength = 0 then
      if isServer then some [NewClientFrame true opcode [] (keys 0)]
      else some [NewServerFrame true opcode []]
    else
      let msize := maxFrameSize.toNat
      let numFrames := (totalLength + msize - 1) / msize
      some ((List.range numFrames).map fun i =>
        let chunk := (data.drop (i * msize)).take msize
        let isFinal := i = numFrames - 1
        let frameOpcode := if i > 0 then OpContinuation else opcode
        if isServer then NewClientFrame isFinal frameOpcode chunk (keys i)
        else NewServerFrame isFinal frameOpcode chunk)

/-! ## Control frames (`frames/control_frames.go`) -/

/-- `frames.NewCloseFrame`: 2-byte big-endian status code, then the reason
bytes; fails only on a non-UTF-8 reason.  `key` is the random masking key for
the client branch. -/
def NewCloseFrame (code : Nat) (reason : List Nat) (isServer : Bool)
    (key : List Nat) : Option Frame :=
  if utf8Valid reason = false then none
  else
    let payload := putUint16BE (code % 2 ^ 16) ++ reason
    if reason ≠ [] ∧ utf8Valid reason = false then none
    else if isServer then some (NewServerFrame true OpClose payload)
    else some (NewClientFrame true OpClose payload key)

/-- `frames.NewPingFrame`: rejects non-UTF-8 application data, then payloads
longer than 125 bytes. -/
def NewPingFrame (applicationData : List Nat) (isClient : Bool)
    (key : List Nat) : Option Frame :=
  if utf8Valid applicationData = false then none
  else if applicationData.length > 125 then none
  else if isClient then some (NewClientFrame true OpPing applicationData key)
  else some (NewServerFrame true OpPing applicationData)

/-- `(*Frame).ReadCloseFrame` returns `(code, reason, err)`; the Boolean is
`true` exactly when the Go function returns a non-nil error (the caller in
`ReadMessage` discards it, so the accompanying code/reason values matter). -/
def Frame.ReadCloseFrame (f : Frame) : Nat × List Nat × Bool :=
  if f.OpCode ≠ OpClose then (0, [], true)
  else if f.PayloadData.length = 0 then (NoStatusCode1005, [], false)
  else if f.PayloadData.length < 2 then (0, [], true)
  else
    let code := readUint16BE (f.PayloadData.getD 0 0) (f.PayloadData.getD 1 0)
    if f.PayloadData.length > 2 ∧ utf8Valid (f.PayloadData.drop 2) = false then
      (code, [], true)
    else (code, f.PayloadData.drop 2, false)

/-! ## Frame validation (`internal/websock.go`) -/

/-- Result of `(*WebSocket).ValidateClientFrame`: either nil error, or the
status code stored into `ws.status` together with the error message. -/
inductive VcfResult where
  | ok : VcfResult
  | err (status : Nat) (msg : List Nat) : VcfResult
deriving DecidableEq, Repr

/-- The status a `VcfResult` sets, if any. -/
def VcfResult.statusOf : VcfResult → Option Nat
  | .ok => none
  | .err s _ => some s

/-- Decimal digits of a number, as ASCII bytes (`fmt` `%d`). -/
def decBytes (n : Nat) : List Nat := (Nat.toDigits 10 n).map Char.toNat

/-- Hexadecimal digits of a number, as ASCII bytes (`fmt` `%x`). -/
def hexBytes (n : Nat) : List Nat := (Nat.toDigits 16 n).map Char.toNat

/-- `(*WebSocket).ValidateClientFrame` for a non-nil frame, in source order:
mask bit, control-frame shape, opcode range, RSV bits, then Close payload
(status-code ranges and UTF-8 reason). -/
def ValidateClientFrame (fr : Frame) : VcfResult :=
  if fr.Masked = false then
    .err ProtocolError (asciiBytes "protocol error: unmasked client frame")
  else if fr.IsControl = true ∧ (125 < fr.PayloadLength ∨ fr.Fin = false) then
    .err ProtocolError (asciiBytes
      "protocol error: control frames must have payload length <= 125 bytes and must not be fragmented")
  else if OpPong < fr.OpCode ∨ (OpBinary < fr.OpCode ∧ fr.OpCode < OpClose) then
    .err ProtocolError
      (asciiBytes "protocol error: opcode " ++ hexBytes fr.OpCode ++
        asciiBytes " is reserved or invalid")
  else if fr.Rsv1 = true ∨ fr.Rsv2 = true ∨ fr.Rsv3 = true then
    .err ProtocolError (asciiBytes "protocol error: RSV bits must be 0")
  else if fr.OpCode = OpClose then
    if 2 ≤ fr.PayloadLength then
      let code := readUint16BE (fr.PayloadData.getD 0 0) (fr.PayloadData.getD 1 0)
      if code < 1000 ∨ (1004 ≤ code ∧ code ≤ 1006) ∨ (1012 ≤ code ∧ code ≤ 2999) then
        .err ProtocolError
          (asciiBytes "protocol error: invalid close code " ++ decBytes code)
      else if 2 < fr.PayloadLength ∧ utf8Valid (fr.PayloadData.drop 2) = false then
        .err GotInconsistentData
          (asciiBytes "protocol error: invalid UTF-8 in close reason")
      else .ok
    else if fr.PayloadLength = 1 then
      .err ProtocolError
        (asciiBytes "protocol error: close payload length must be 0 or at least 2")
    else .ok
  else .ok

/-- The close status code `ValidateClientFrame` parses from the first two
payload bytes (`binary.BigEndian.Uint16(fr.PayloadData[:2])`). -/
def closeCodeOf (f : Frame) : Nat :=
  readUint16BE (f.PayloadData.getD 0 0) (f.PayloadData.getD 1 0)

/-! ## ReadMessage (`internal/websock.go`) -/

/-- `(*WebSocket).WriteCloseMessage`: builds a server Close frame and writes it;
`none` is the construction error (non-UTF-8 reason).  The transport write is
modelled as succeeding, so the result is the frame put on the wire. -/
def WriteCloseMessage (code : Nat) (reason : List Nat) : Option Frame :=
  NewCloseFrame code reason true [0, 0, 0, 0]

/-- `(*WebSocket).WritePongMessage` for a non-nil ping frame: an unmasked Pong
carrying the ping's payload. -/
def WritePongMessage (pingFrame : Frame) : Frame :=
  NewServerFrame true OpPong pingFrame.PayloadData

/-- The value `(messageType, data, err)` returned by `ReadMessage`, with each
distinct Go error source given its own tag. -/
inductive RMResult where
  | message (op : Nat) (data : List Nat) : RMResult
  | closed : RMResult
  | errReadFrame : RMResult
  | errValidation (status : Nat) : RMResult
  | errPong : RMResult
  | errContinuationWithoutStart : RMResult
  | errNewDataWhileFragmented : RMResult
  | errInvalidDataOpcode : RMResult
  | errNoInitialDataFrame : RMResult
  | errInvalidUTF8 : RMResult
  | errCloseWrite : RMResult
  | fuelOut : RMResult
deriving DecidableEq, Repr

/-- Observable outcome of one `ReadMessage` call: result value, the frames
written to the peer during the call (in order), and whether `ws.Conn.Close()`
was invoked. -/
structure RMOut where
  result : RMResult
  sent : List Frame
  connClosed : Bool
deriving DecidableEq, Repr

/-- The `ReadMessage` loop.  `fuel` bounds the number of iterations (each Go
iteration consumes at least the 2-byte header from the transport); `sent`,
`payload`, `firstOpCode` and `inFragmented` carry the per-call mutable state,
with the Go initial values `nil`, `nil`, `0`, `false`. -/
def ReadMessageAux : Nat → List Nat → List Frame → List Nat → Nat → Bool → RMOut
  | 0, _, sent, _, _, _ => ⟨.fuelOut, sent, false⟩
  | fuel + 1, input, sent, payload, firstOpCode, inFragmented =>
    match DecodeFrame input with
    | none =>
      match WriteCloseMessage ProtocolError (asciiBytes "error reading frame") with
      | none => ⟨.errCloseWrite, sent, true⟩
      | some cf => ⟨.errReadFrame, sent ++ [cf], true⟩
    | some (frame, rest) =>
      match ValidateClientFrame frame with
      | .err status msg =>
        match WriteCloseMessage status msg with
        | none => ⟨.errCloseWrite, sent, true⟩
        | some cf => ⟨.errValidation status, sent ++ [cf], true⟩
      | .ok =>
        if frame.OpCode = OpClose then
          let res := frame.ReadCloseFrame
          let code := if res.1 = 0 then NormalClosure else res.1
          match WriteCloseMessage code res.2.1 with
          | none => ⟨.errCloseWrite, sent, true⟩
          | some cf => ⟨.closed, sent ++ [cf], true⟩
        else if frame.OpCode = OpPing then
          ReadMessageAux fuel rest (sent ++ [WritePongMessage frame])
            payload firstOpCode inFragmented
        else if frame.OpCode = OpPong then
          ReadMessageAux fuel rest sent payload firstOpCode inFragmented
        else if frame.OpCode = OpContinuation then
          if inFragmented = false then
            match WriteCloseMessage ProtocolError
                (asciiBytes "continuation frame without preceding data frame") with
            | none => ⟨.errCloseWrite, sent, true⟩
            | some cf => ⟨.errContinuationWithoutStart, sent ++ [cf], true⟩
          else
            -- payload = append(payload, frame.PayloadData...); then the shared
            -- `if frame.Fin` epilogue of the Go loop body
            let payload2 := payload ++ frame.PayloadData
            if frame.Fin = true then
              if firstOpCode = 0 then
                match WriteCloseMessage ProtocolError
                    (asciiBytes "no initial data frame for continuation") with
                | none => ⟨.errCloseWrite, sent, true⟩
                | some cf => ⟨.errNoInitialDataFrame, sent ++ [cf], true⟩
              else if firstOpCode = OpText ∧ utf8Valid payload2 = false then
                match WriteCloseMessage GotInconsistentData
                    (asciiBytes "invalid UTF-8 in text message") with
                | none => ⟨.errCloseWrite, sent, true⟩
                | some cf => ⟨.errInvalidUTF8, sent ++ [cf], true⟩
              else ⟨.message firstOpCode payload2, sent, false⟩
            else ReadMessageAux fuel rest sent payload2 firstOpCode inFragmented
        else
          if inFragmented = true then
            match WriteCloseMessage ProtocolError
                (asciiBytes "new data frame received while in fragmented message") with
            | none => ⟨.errCloseWrite, sent, true⟩
            | some cf => ⟨.errNewDataWhileFragmented, sent ++ [cf], true⟩
          else if frame.OpCode ≠ OpText ∧ frame.OpCode ≠ OpBinary then
            match WriteCloseMessage ProtocolError
                (asciiBytes "invalid data frame opcode " ++ decBytes frame.OpCode) with
            | none => ⟨.errCloseWrite, sent, true⟩
            | some cf => ⟨.errInvalidDataOpcode, sent ++ [cf], true⟩
          else
            -- firstOpCode/payload/inFragmented updates, then the shared
            -- `if frame.Fin` epilogue of the Go loop body
            let firstOp2 := frame.OpCode
            let payload2 := frame.PayloadData
            let inFrag2 := !frame.Fin
            if frame.Fin = true then
              if firstOp2 = 0 then
                match WriteCloseMessage ProtocolError
                    (asciiBytes "no initial data frame for continuation") with
                | none => ⟨.errCloseWrite, sent, true⟩
                | some cf => ⟨.errNoInitialDataFrame, sent ++ [cf], true⟩
              else if firstOp2 = OpText ∧ utf8Valid payload2 = false then
                match WriteCloseMessage GotInconsistentData
                    (asciiBytes "invalid UTF-8 in text message") with
                | none => ⟨.errCloseWrite, sent, true⟩
                | some cf => ⟨.errInvalidUTF8, sent ++ [cf], true⟩
              else ⟨.message firstOp2 payload2, sent, false⟩
            else ReadMessageAux fuel rest sent payload2 firstOp2 inFrag2

/-- `(*WebSocket).ReadMessage` with the Go initial state. -/
def ReadMessage (fuel : Nat) (input : List Nat) : RMOut :=
  ReadMessageAux fuel input [] [] 0 false

/-! ## Masking lemmas -/

/-- The masking loop preserves the payload length. -/
theorem maskLoop_length (key : List Nat) (i : Nat) (p : List Nat) :
    (maskLoop key i p).length = p.length := by
  induction p generalizing i with
  | nil => rfl
  | cons b rest ih => simp [maskLoop, ih]

/-- Running the masking loop twice from the same start index is the identity. -/
theorem maskLoop_maskLoop (key : List Nat) (i : Nat) (p : List Nat) :
    maskLoop key i (maskLoop key i p) = p := by
  induction p generalizing i with
  | nil => rfl
  | cons b rest ih => simp [maskLoop, Nat.xor_cancel_right, ih]

/-- `maskBytes` preserves length. -/
theorem maskBytes_length (key : List Nat) (p : List Nat) :
    (maskBytes key p).length = p.length :=
  maskLoop_length key 0 p

/-- `maskBytes` with a fixed key is an involution. -/
theorem maskBytes_maskBytes (key : List Nat) (p : List Nat) :
    maskBytes key (maskBytes key p) = p :=
  maskLoop_maskLoop key 0 p

/-- C9: payload masking is an involution.  Applying `MaskPayload` twice
restores the frame exactly; the raw XOR transform applied twice with the same
key restores any payload; and a single application is a no-op on an unmasked
frame or an empty payload. -/
theorem claim_C9_masking_involution (f : Frame) :
    f.MaskPayload.MaskPayload = f ∧
    (∀ key p : List Nat, maskBytes key (maskBytes key p) = p) ∧
    (f.Masked = false → f.MaskPayload = f) ∧
    (f.PayloadData = [] → f.MaskPayload = f) := by
  refine ⟨?_, fun key p => maskBytes_maskBytes key p, ?_, ?_⟩
  · by_cases hm : f.Masked = false
    · simp [Frame.MaskPayload, hm]
    · by_cases hp : f.PayloadData = []
      · simp [Frame.MaskPayload, hp]
      · have hm2 : f.Masked = true := by simpa using hm
        simp [Frame.MaskPayload, hm, hp, maskBytes_length, maskBytes_maskBytes]
        rw [← hm2]
  · intro h
    simp [Frame.MaskPayload, h]
  · intro h
    simp [Frame.MaskPayload, h]

/-- Witness for C9 at a concrete unmasked frame with an empty payload. -/
theorem claim_C9_witness :
    (Frame.MaskPayload ⟨true, false, false, false, 1, false, 0, [0, 0, 0, 0], []⟩).MaskPayload =
      ⟨true, false, false, false, 1, false, 0, [0, 0, 0, 0], []⟩ ∧
    Frame.MaskPayload ⟨true, false, false, false, 1, false, 0, [0, 0, 0, 0], []⟩ =
      ⟨true, false, false, false, 1, false, 0, [0, 0, 0, 0], []⟩ :=
  ⟨(claim_C9_masking_involution _).1, (claim_C9_masking_involution _).2.2.1 rfl⟩

/-! ## Frame-constructor lemmas -/

/-- `NewFrame` keeps the payload length, in `PayloadData` (masking is
length-preserving) and in the `PayloadLength` field. -/
theorem NewFrame_payload_length (fin : Bool) (opcode : Nat) (payload : List Nat)
    (mask : Bool) (key : List Nat) :
    (NewFrame fin opcode payload mask key).PayloadData.length = payload.length ∧
    (NewFrame fin opcode payload mask key).PayloadLength = payload.length := by
  unfold NewFrame Frame.MaskPayload
  by_cases hm : mask
  · by_cases hp : payload = []
    · simp [hm, hp]
    · simp [hm, hp, maskBytes_length]
  · simp [hm]

/-- C2: evaluating `FragmentedFrames` at `isServer = true` (the argument the
session's `WriteFragmentedMessage` passes) shows the emitted frame has
`Masked = true`: the `isServer` branches are inverted and call
`NewClientFrame`. -/
theorem claim_C2_fragmented_server_frames_are_masked :
    (FragmentedFrames [] 1 OpText true fun _ => [0, 0, 0, 0]).map
      (List.map Frame.Masked) = some [true] := by decide

/-- C7: evaluating `FragmentedFrames` at `isServer = true` with a nonzero
masking key: the single frame's payload comes back XOR-masked, so the
concatenation of the payloads is `[0]`, not the input `[1]`. -/
theorem claim_C7_fragmented_payloads_do_not_concatenate :
    (FragmentedFrames [1] 1 OpText true fun _ => [1, 0, 0, 0]).map
      (fun frames => (frames.map Frame.PayloadData).flatten) = some [0] := by decide

set_option maxRecDepth 4000 in
/-- C6: evaluating `NewCloseFrame` on a 124-byte reason: the close payload is
126 bytes, above the 125-byte control-frame limit, yet no error is returned
(the length check present in `NewPingFrame` is missing in `NewCloseFrame`). -/
theorem claim_C6_close_frame_oversize_accepted :
    (NewCloseFrame 1000 (List.replicate 124 97) true [0, 0, 0, 0]).map
      (fun f => f.PayloadData.length) = some 126 := by decide

/-- C3: evaluating `ReadMessage` on a masked Close frame with an empty payload
(wire bytes `88 80` plus a zero masking key): the echoed Close frame carries
status 1005 (payload bytes `[3, 237]`), not the claimed default 1000
(`[3, 232]`), because `ReadCloseFrame` reports a missing status as 1005 and
`ReadMessage` only replaces a status of 0 by `NormalClosure`. -/
theorem claim_C3_empty_close_echoes_1005 :
    (ReadMessage 1 [136, 128, 0, 0, 0, 0]).result = .closed ∧
    (ReadMessage 1 [136, 128, 0, 0, 0, 0]).connClosed = true ∧
    (ReadMessage 1 [136, 128, 0, 0, 0, 0]).sent.map Frame.PayloadData = [[3, 237]] := by
  refine ⟨by decide, by decide, by decide⟩

/-- C5 counterexample: on a transport whose next read fails (a single stray
byte cannot complete the 2-byte header), `ReadMessage` does attempt a Close
frame — opcode 8 with status 1002 — before closing the transport, refuting
"no Close frame is attempted". -/
theorem claim_C5_counterexample :
    DecodeFrame [0] = none ∧
    (ReadMessage 1 [0]).result = .errReadFrame ∧
    (ReadMessage 1 [0]).connClosed = true ∧
    (ReadMessage 1 [0]).sent.map (fun f => (f.OpCode, f.PayloadData.take 2)) =
      [(8, [3, 234])] := by
  refine ⟨by decide, by decide, by decide, by decide⟩

/-- C5 (amended): when reading the next frame fails, `ReadMessage` sets the
status to ProtocolError, writes one Close frame with status 1002 and reason
"error reading frame", then closes the transport and returns the read error. -/
theorem claim_C5_read_error_close_then_abandon (fuel : Nat) (input : List Nat)
    (hf : 1 ≤ fuel) (hd : DecodeFrame input = none) :
    ∃ cf, WriteCloseMessage ProtocolError (asciiBytes "error reading frame") = some cf ∧
      ReadMessage fuel input = ⟨.errReadFrame, [cf], true⟩ := by
  obtain ⟨k, rfl⟩ : ∃ k, fuel = k + 1 := ⟨fuel - 1, by omega⟩
  refine ⟨(WriteCloseMessage ProtocolError (asciiBytes "error reading frame")).get (by decide),
    by simp, ?_⟩
  simp only [ReadMessage, ReadMessageAux, hd]
  rfl

/-- Witness for the amended C5 at a concrete failing stream. -/
theorem claim_C5_witness :
    ∃ cf, WriteCloseMessage ProtocolError (asciiBytes "error reading frame") = some cf ∧
      ReadMessage 1 [5] = ⟨.errReadFrame, [cf], true⟩ :=
  claim_C5_read_error_close_then_abandon 1 [5] (by decide) (by decide)

/-- C10: every close frame built by `NewCloseFrame` carries a payload of
exactly `2 + |reason|` bytes — the 2-byte big-endian status code is always
written — so the payload is never absent (never shorter than 2 bytes). -/
theorem claim_C10_close_payload_never_absent (code : Nat) (reason : List Nat)
    (isServer : Bool) (key : List Nat) (f : Frame)
    (h : NewCloseFrame code reason isServer key = some f) :
    f.PayloadData.length = 2 + reason.length ∧ 2 ≤ f.PayloadData.length ∧
    f.PayloadLength = 2 + reason.length := by
  have hpay : (putUint16BE (code % 2 ^ 16) ++ reason).length = 2 + reason.length := by
    simp only [List.length_append, putUint16BE, List.length_cons, List.length_nil]
    try omega
  by_cases hu : utf8Valid reason = false
  · rw [NewCloseFrame, if_pos hu] at h
    cases h
  · rw [NewCloseFrame, if_neg hu, if_neg (by tauto)] at h
    by_cases hs : isServer = true
    · rw [if_pos hs, Option.some_inj] at h
      subst h
      have hnf := NewFrame_payload_length true OpClose
        (putUint16BE (code % 2 ^ 16) ++ reason) false [0, 0, 0, 0]
      unfold NewServerFrame
      refine ⟨?_, ?_, ?_⟩ <;> omega
    · rw [if_neg hs, Option.some_inj] at h
      subst h
      have hnf := NewFrame_payload_length true OpClose
        (putUint16BE (code % 2 ^ 16) ++ reason) true key
      unfold NewClientFrame
      refine ⟨?_, ?_, ?_⟩ <;> omega

/-- Witness for C10 at a concrete close frame. -/
theorem claim_C10_witness :
    (⟨true, false, false, false, 8, false, 2, [0, 0, 0, 0], [3, 237]⟩ : Frame).PayloadData.length =
        2 + ([] : List Nat).length ∧
      2 ≤ (⟨true, false, false, false, 8, false, 2, [0, 0, 0, 0], [3, 237]⟩ : Frame).PayloadData.length ∧
      (⟨true, false, false, false, 8, false, 2, [0, 0, 0, 0], [3, 237]⟩ : Frame).PayloadLength =
        2 + ([] : List Nat).length :=
  claim_C10_close_payload_never_absent 1005 [] true [0, 0, 0, 0] _ (by decide)

/-- C4 counterexample: a masked, well-shaped Close frame whose status code is
1015 — in the claim's accepted set — is rejected with ProtocolError
(1015 falls in the code's rejected band 1012–2999). -/
theorem claim_C4_counterexample :
    closeCodeOf ⟨true, false, false, false, 8, true, 2, [0, 0, 0, 0], [3, 247]⟩ = 1015 ∧
    (ValidateClientFrame
        ⟨true, false, false, false, 8, true, 2, [0, 0, 0, 0], [3, 247]⟩).statusOf =
      some ProtocolError := by decide

/-- C4 (amended): for a masked, well-shaped Close frame with payload of at
least 2 bytes, `ValidateClientFrame` accepts codes in 1000–1003, 1007–1011
and 3000–4999 (given a valid-UTF-8 reason) — 1015 is not accepted — and
rejects with ProtocolError exactly the codes below 1000, in 1004–1006 or in
1012–2999. -/
theorem claim_C4_close_code_validation (f : Frame)
    (hM : f.Masked = true) (hF : f.Fin = true)
    (h1 : f.Rsv1 = false) (h2 : f.Rsv2 = false) (h3 : f.Rsv3 = false)
    (hop : f.OpCode = OpClose)
    (hwf : f.PayloadLength = f.PayloadData.length)
    (hlen2 : 2 ≤ f.PayloadLength) (hlen125 : f.PayloadLength ≤ 125) :
    ((1000 ≤ closeCodeOf f ∧ closeCodeOf f ≤ 1003) ∨
        (1007 ≤ closeCodeOf f ∧ closeCodeOf f ≤ 1011) ∨
        (3000 ≤ closeCodeOf f ∧ closeCodeOf f ≤ 4999) →
      utf8Valid (f.PayloadData.drop 2) = true → ValidateClientFrame f = .ok) ∧
    ((ValidateClientFrame f).statusOf = some ProtocolError ↔
      closeCodeOf f < 1000 ∨ (1004 ≤ closeCodeOf f ∧ closeCodeOf f ≤ 1006) ∨
        (1012 ≤ closeCodeOf f ∧ closeCodeOf f ≤ 2999)) := by
  have hv : ValidateClientFrame f =
      if closeCodeOf f < 1000 ∨ (1004 ≤ closeCodeOf f ∧ closeCodeOf f ≤ 1006) ∨
          (1012 ≤ closeCodeOf f ∧ closeCodeOf f ≤ 2999) then
        VcfResult.err ProtocolError
          (asciiBytes "protocol error: invalid close code " ++ decBytes (closeCodeOf f))
      else if 2 < f.PayloadLength ∧ utf8Valid (f.PayloadData.drop 2) = false then
        VcfResult.err GotInconsistentData
          (asciiBytes "protocol error: invalid UTF-8 in close reason")
      else .ok := by
    unfold ValidateClientFrame
    rw [if_neg (by simp [hM])]
    rw [if_neg (by
      rintro ⟨-, hb | hb⟩
      · omega
      · rw [hF] at hb
        cases hb)]
    rw [if_neg (by rw [hop]; decide)]
    rw [if_neg (by simp [h1, h2, h3])]
    rw [if_pos hop, if_pos hlen2]
    rfl
  constructor
  · intro hin hutf
    rw [hv, if_neg (by omega), if_neg (by simp [hutf])]
  · rw [hv]
    by_cases hr : closeCodeOf f < 1000 ∨ (1004 ≤ closeCodeOf f ∧ closeCodeOf f ≤ 1006) ∨
        (1012 ≤ closeCodeOf f ∧ closeCodeOf f ≤ 2999)
    · simp [hr, VcfResult.statusOf]
    · rw [if_neg hr]
      by_cases hu : 2 < f.PayloadLength ∧ utf8Valid (f.PayloadData.drop 2) = false
      · simp [hu, VcfResult.statusOf, hr, GotInconsistentData, ProtocolError]
      · simp [hu, VcfResult.statusOf, hr]

/-- Witness for the amended C4: an in-range code (1000) with an empty reason
is accepted. -/
theorem claim_C4_witness :
    ValidateClientFrame ⟨true, false, false, false, 8, true, 2, [0, 0, 0, 0], [3, 232]⟩ = .ok :=
  (claim_C4_close_code_validation _ rfl rfl rfl rfl rfl rfl (by decide) (by decide)
    (by decide)).1 (by decide) (by decide)

/-! ## Header-byte and length-encoding lemmas -/

/-- Low seven bits of the second header byte, for both values of the mask bit. -/
theorem secondByte_and127 :
    ∀ x ≤ 127, (0 ||| x) &&& 127 = x ∧ (128 ||| x) &&& 127 = x ∧
      ((0 ||| x) &&& 128 != 0) = false ∧ ((128 ||| x) &&& 128 != 0) = true := by
  decide

/-- Big-endian 16-bit write/read round trip. -/
theorem readUint16_putUint16 (v : Nat) (hv : v < 2 ^ 16) :
    readUint16BE (v / 2 ^ 8 % 256) (v % 256) = v := by
  rw [readUint16BE]
  norm_num
  omega

/-- Big-endian 64-bit write/read round trip. -/
theorem readUint64_putUint64 (v : Nat) (hv : v < 2 ^ 64) :
    readUint64BE (putUint64BE v) = v := by
  rw [readUint64BE, putUint64BE]
  simp only [List.getD_cons_zero, List.getD_cons_succ]
  norm_num
  omega

/-- `readUint64BE` only looks at the first eight bytes. -/
theorem readUint64_append (l rest : List Nat) (h : l.length = 8) :
    readUint64BE (l ++ rest) = readUint64BE l := by
  rw [readUint64BE, readUint64BE,
    List.getD_append _ _ _ _ (by omega), List.getD_append _ _ _ _ (by omega),
    List.getD_append _ _ _ _ (by omega), List.getD_append _ _ _ _ (by omega),
    List.getD_append _ _ _ _ (by omega), List.getD_append _ _ _ _ (by omega),
    List.getD_append _ _ _ _ (by omega), List.getD_append _ _ _ _ (by omega)]

/-- C8: `MarshalBinary` always selects the minimal length encoding — lengths
up to 125 inline in the low seven bits of the second header byte, 126–65535
via the big-endian 16-bit extension behind indicator 126, and 65536 upwards
via the big-endian 64-bit extension behind indicator 127. -/
theorem claim_C8_minimal_length_encoding (f : Frame) (h64 : f.PayloadLength < 2 ^ 64) :
    (f.PayloadLength ≤ 125 →
      f.MarshalBinary.getD 1 0 &&& 127 = f.PayloadLength ∧
      f.MarshalBinary.length = 2 + (if f.Masked then 4 else 0) + f.PayloadData.length) ∧
    (126 ≤ f.PayloadLength → f.PayloadLength ≤ 65535 →
      f.MarshalBinary.getD 1 0 &&& 127 = 126 ∧
      readUint16BE (f.MarshalBinary.getD 2 0) (f.MarshalBinary.getD 3 0) = f.PayloadLength ∧
      f.MarshalBinary.length = 4 + (if f.Masked then 4 else 0) + f.PayloadData.length) ∧
    (65536 ≤ f.PayloadLength →
      f.MarshalBinary.getD 1 0 &&& 127 = 127 ∧
      readUint64BE (f.MarshalBinary.drop 2) = f.PayloadLength ∧
      f.MarshalBinary.length = 10 + (if f.Masked then 4 else 0) + f.PayloadData.length) := by
  refine ⟨?_, ?_, ?_⟩
  · intro h125
    have hmod : f.PayloadLength % 256 = f.PayloadLength := Nat.mod_eq_of_lt (by omega)
    have hlow := secondByte_and127 f.PayloadLength (by omega)
    rw [Frame.MarshalBinary, if_pos h125]
    cases hm : f.Masked
    · refine ⟨?_, ?_⟩
      · simp only [hm, Bool.false_eq_true, if_false, List.nil_append, List.cons_append,
          List.getD_cons_succ, List.getD_cons_zero, hmod]
        exact hlow.1
      · simp [hm]
        omega
    · refine ⟨?_, ?_⟩
      · simp only [hm, if_true, key4, List.cons_append, List.getD_cons_succ,
          List.getD_cons_zero, hmod]
        exact hlow.2.1
      · simp [hm, key4]
        omega
  · intro h126 h65535
    have hne : ¬f.PayloadLength ≤ 125 := by omega
    have hmod : f.PayloadLength % 2 ^ 16 = f.PayloadLength := Nat.mod_eq_of_lt (by norm_num; omega)
    have hlow := secondByte_and127 126 (by omega)
    have hget := readUint16_putUint16 f.PayloadLength (by norm_num; omega)
    rw [Frame.MarshalBinary, if_neg hne, if_pos h65535]
    cases hm : f.Masked <;>
      simp only [hm, key4, putUint16BE, hmod, if_true, if_false, Bool.false_eq_true,
        List.cons_append, List.nil_append, List.getD_cons_zero, List.getD_cons_succ,
        List.length_cons, List.length_append] <;>
      refine ⟨hlow.1, hget, by simp; omega⟩
  · intro h65536
    have hne : ¬f.PayloadLength ≤ 125 := by omega
    have hne2 : ¬f.PayloadLength ≤ 65535 := by omega
    have hlow := secondByte_and127 127 (by omega)
    have hget : readUint64BE (putUint64BE f.PayloadLength ++
        ((if f.Masked then key4 f.MaskingKey else []) ++ f.PayloadData)) = f.PayloadLength := by
      rw [readUint64_append _ _ (by rw [putUint64BE]; rfl)]
      exact readUint64_putUint64 _ h64
    rw [Frame.MarshalBinary, if_neg hne, if_neg hne2]
    cases hm : f.Masked <;>
      simp only [hm, key4, if_true, if_false, Bool.false_eq_true,
        List.cons_append, List.nil_append, List.getD_cons_zero, List.getD_cons_succ,
        List.length_cons, List.length_append, List.drop_succ_cons, List.drop_zero]
    · refine ⟨hlow.1, by simpa using hget, by simp [putUint64BE]; omega⟩
    · refine ⟨hlow.2.1, by simpa using hget, by simp [putUint64BE]; omega⟩

/-- Witness for C8 at a concrete three-byte unmasked text frame. -/
theorem claim_C8_witness :
    (Frame.MarshalBinary ⟨true, false, false, false, 1, false, 3, [0, 0, 0, 0], [7, 8, 9]⟩).getD 1 0 &&& 127 =
        (⟨true, false, false, false, 1, false, 3, [0, 0, 0, 0], [7, 8, 9]⟩ : Frame).PayloadLength ∧
      (Frame.MarshalBinary ⟨true, false, false, false, 1, false, 3, [0, 0, 0, 0], [7, 8, 9]⟩).length =
        2 + (if (⟨true, false, false, false, 1, false, 3, [0, 0, 0, 0], [7, 8, 9]⟩ : Frame).Masked then 4 else 0) +
          (⟨true, false, false, false, 1, false, 3, [0, 0, 0, 0], [7, 8, 9]⟩ : Frame).PayloadData.length :=
  (claim_C8_minimal_length_encoding _ (by decide)).1 (by decide)

/-! ## Decoding helper lemmas -/

/-- `readFull` on a stream starting with two explicit bytes. -/
theorem readFull_cons_two (a b : Nat) (t : List Nat) :
    readFull 2 (a :: b :: t) = some ([a, b], t) := by
  rw [readFull, if_neg (by simp only [List.length_cons]; omega)]
  rfl

/-- `readFull n` on a stream whose first `n` bytes form the list `l`. -/
theorem readFull_append (l rest : List Nat) (n : Nat) (h : l.length = n) :
    readFull n (l ++ rest) = some (l, rest) := by
  subst h
  rw [readFull, if_neg (by simp only [List.length_append]; omega)]
  rw [List.take_left, List.drop_left]

/-- `readFull n` on a stream of exactly `n` bytes consumes everything. -/
theorem readFull_exact (l : List Nat) (n : Nat) (h : l.length = n) :
    readFull n l = some (l, []) := by
  have := readFull_append l [] n h
  simpa using this

/-- Header byte 0 round trip: each flag and the opcode nibble are recovered by
the decoder's masks, for every defined opcode. -/
theorem headerByte0_spec (fin r1 r2 r3 : Bool) (op : Nat)
    (hop : op = OpContinuation ∨ op = OpText ∨ op = OpBinary ∨ op = OpClose ∨
      op = OpPing ∨ op = OpPong) :
    ((headerByte0 fin r1 r2 r3 op &&& 128 != 0) = fin) ∧
    ((headerByte0 fin r1 r2 r3 op &&& 64 != 0) = r1) ∧
    ((headerByte0 fin r1 r2 r3 op &&& 32 != 0) = r2) ∧
    ((headerByte0 fin r1 r2 r3 op &&& 16 != 0) = r3) ∧
    (headerByte0 fin r1 r2 r3 op &&& 15 = op) := by
  rcases hop with rfl | rfl | rfl | rfl | rfl | rfl <;>
    cases fin <;> cases r1 <;> cases r2 <;> cases r3 <;> decide

/-- Inline length field round trip: a 7-bit length is not mistaken for the
mask bit and survives the `&&& 127` extraction. -/
theorem inline_len_facts : ∀ x ≤ 125, ((x &&& 128 != 0) = false) ∧ x &&& 127 = x := by
  decide

/-- A 64-bit length below `2 ^ 63` passes the decoder's top-bit test. -/
theorem and_top_bit_eq_zero (v : Nat) (hv : v < 2 ^ 63) :
    (v &&& 1 <<< 63 != 0) = false := by
  have h1 : (1 : Nat) <<< 63 = 2 ^ 63 := by rw [Nat.shiftLeft_eq, one_mul]
  rw [h1, Nat.and_two_pow, Nat.testBit_eq_false_of_lt hv]
  rfl

/-- Structure eta for the decoded frame against an unmasked zero-key frame. -/
theorem frame_eta (f : Frame) (hm : f.Masked = false) (hk : f.MaskingKey = [0, 0, 0, 0]) :
    (⟨f.Fin, f.Rsv1, f.Rsv2, f.Rsv3, f.OpCode, false, f.PayloadLength, [0, 0, 0, 0],
      f.PayloadData⟩ : Frame) = f := by
  rw [← hk, ← hm]

/-- C1 (amended): for every valid frame (defined opcode, control frames final
and short, length below `2 ^ 63` and equal to the payload size) that is
unmasked with the zero masking key, decoding the marshalled bytes returns the
frame unchanged in every field with nothing left in the stream.  (Masked
frames do not round-trip: the payload is stored pre-masked and the decoder
XORs it once more; a nonzero key on an unmasked frame is not serialized.) -/
theorem claim_C1_roundtrip (f : Frame)
    (hop : f.OpCode = OpContinuation ∨ f.OpCode = OpText ∨ f.OpCode = OpBinary ∨
      f.OpCode = OpClose ∨ f.OpCode = OpPing ∨ f.OpCode = OpPong)
    (hctl : 8 ≤ f.OpCode → f.Fin = true ∧ f.PayloadLength ≤ 125)
    (h63 : f.PayloadLength < 2 ^ 63)
    (hlen : f.PayloadData.length = f.PayloadLength)
    (hm : f.Masked = false) (hk : f.MaskingKey = [0, 0, 0, 0]) :
    DecodeFrame f.MarshalBinary = some (f, []) := by
  have hb0 := headerByte0_spec f.Fin f.Rsv1 f.Rsv2 f.Rsv3 f.OpCode hop
  have hpayload : decodePayloadData f.PayloadLength f.PayloadData =
      some (f.PayloadData, []) := by
    rw [decodePayloadData]
    by_cases hp : f.PayloadLength > 0
    · rw [if_pos hp, readFull_exact f.PayloadData _ hlen]
    · rw [if_neg hp]
      have hnil : f.PayloadData = [] := List.length_eq_zero.mp (by omega)
      rw [hnil]
  by_cases h125 : f.PayloadLength ≤ 125
  · have hmod : f.PayloadLength % 256 = f.PayloadLength := Nat.mod_eq_of_lt (by omega)
    have hmarshal : f.MarshalBinary =
        headerByte0 f.Fin f.Rsv1 f.Rsv2 f.Rsv3 f.OpCode :: f.PayloadLength :: f.PayloadData := by
      rw [Frame.MarshalBinary, if_pos h125, hm, hmod]
      simp
    have hlf := inline_len_facts f.PayloadLength h125
    rw [hmarshal]
    rw [DecodeFrame, readFull_cons_two, Option.some_bind]
    simp only [List.getD_cons_zero, List.getD_cons_succ, hlf.1, hlf.2,
      hb0.1, hb0.2.1, hb0.2.2.1, hb0.2.2.2.1, hb0.2.2.2.2]
    rw [decodeExtendedLength, if_pos h125, Option.some_bind]
    rw [decodeMaskingKey, if_neg (by simp), Option.some_bind]
    rw [hpayload, Option.some_bind]
    simp only [Bool.false_eq_true, if_false]
    rw [frame_eta f hm hk]
  · by_cases h65535 : f.PayloadLength ≤ 65535
    · have hmod : f.PayloadLength % 2 ^ 16 = f.PayloadLength :=
        Nat.mod_eq_of_lt (by norm_num; omega)
      have hmarshal : f.MarshalBinary =
          headerByte0 f.Fin f.Rsv1 f.Rsv2 f.Rsv3 f.OpCode :: 126 ::
            (putUint16BE f.PayloadLength ++ f.PayloadData) := by
        rw [Frame.MarshalBinary, if_neg h125, if_pos h65535, hm, hmod]
        simp
      have e1 : (126 : Nat) &&& 127 = 126 := by decide
      have e2 : ((126 : Nat) &&& 128 != 0) = false := by decide
      rw [hmarshal]
      rw [DecodeFrame, readFull_cons_two, Option.some_bind]
      simp only [List.getD_cons_zero, List.getD_cons_succ, e1, e2,
        hb0.1, hb0.2.1, hb0.2.2.1, hb0.2.2.2.1, hb0.2.2.2.2]
      rw [decodeExtendedLength, if_neg (by omega), if_pos (Eq.refl (126 : Nat))]
      rw [readFull_append (putUint16BE f.PayloadLength) f.PayloadData 2 rfl, Option.some_bind]
      have hget : readUint16BE ((putUint16BE f.PayloadLength).getD 0 0)
          ((putUint16BE f.PayloadLength).getD 1 0) = f.PayloadLength := by
        rw [putUint16BE]
        simp only [List.getD_cons_zero, List.getD_cons_succ]
        exact readUint16_putUint16 f.PayloadLength (by norm_num; omega)
      rw [hget, Option.some_bind]
      rw [decodeMaskingKey, if_neg (by simp), Option.some_bind]
      rw [hpayload, Option.some_bind]
      simp only [Bool.false_eq_true, if_false]
      rw [frame_eta f hm hk]
    · have hmarshal : f.MarshalBinary =
          headerByte0 f.Fin f.Rsv1 f.Rsv2 f.Rsv3 f.OpCode :: 127 ::
            (putUint64BE f.PayloadLength ++ f.PayloadData) := by
        rw [Frame.MarshalBinary, if_neg h125, if_neg h65535, hm]
        simp
      have e1 : (127 : Nat) &&& 127 = 127 := by decide
      have e2 : ((127 : Nat) &&& 128 != 0) = false := by decide
      rw [hmarshal]
      rw [DecodeFrame, readFull_cons_two, Option.some_bind]
      simp only [List.getD_cons_zero, List.getD_cons_succ, e1, e2,
        hb0.1, hb0.2.1, hb0.2.2.1, hb0.2.2.2.1, hb0.2.2.2.2]
      rw [decodeExtendedLength, if_neg (by omega), if_neg (by omega),
        if_pos (Eq.refl (127 : Nat))]
      rw [readFull_append (putUint64BE f.PayloadLength) f.PayloadData 8 (by rw [putUint64BE]; rfl),
        Option.some_bind]
      rw [readUint64_putUint64 f.PayloadLength (by omega)]
      simp only [and_top_bit_eq_zero f.PayloadLength h63, Bool.false_eq_true, if_false,
        Option.some_bind]
      rw [decodeMaskingKey, if_neg (by simp), Option.some_bind]
      rw [hpayload, Option.some_bind]
      simp only [Bool.false_eq_true, if_false]
      rw [frame_eta f hm hk]


/-- C1 counterexample: a masked frame meeting all the claim's validity
conditions whose decoded payload differs from the original (`[1]` vs `[0]`,
the single byte XORed once more with the key byte 1). -/
theorem claim_C1_counterexample :
    ((⟨true, false, false, false, OpText, true, 1, [1, 0, 0, 0], [0]⟩ : Frame).OpCode = OpText ∧
      (⟨true, false, false, false, OpText, true, 1, [1, 0, 0, 0], [0]⟩ : Frame).PayloadLength < 2 ^ 63 ∧
      (⟨true, false, false, false, OpText, true, 1, [1, 0, 0, 0], [0]⟩ : Frame).PayloadData.length =
        (⟨true, false, false, false, OpText, true, 1, [1, 0, 0, 0], [0]⟩ : Frame).PayloadLength) ∧
    DecodeFrame (Frame.MarshalBinary
        ⟨true, false, false, false, OpText, true, 1, [1, 0, 0, 0], [0]⟩) ≠
      some (⟨true, false, false, false, OpText, true, 1, [1, 0, 0, 0], [0]⟩, []) := by
  decide

/-- Witness for the amended C1 at a concrete three-byte unmasked text frame. -/
theorem claim_C1_witness :
    DecodeFrame (Frame.MarshalBinary
        ⟨true, false, false, false, 1, false, 3, [0, 0, 0, 0], [104, 105, 33]⟩) =
      some (⟨true, false, false, false, 1, false, 3, [0, 0, 0, 0], [104, 105, 33]⟩, []) :=
  claim_C1_roundtrip _ (by decide) (by decide) (by decide) (by decide) (by decide) (by decide)

end Gowebsock
